import Mathlib

/-!
Shallow embedding of the `shopify-langchain` repository
(`src/shopify_tools.py` and `src/shopify_agent.py`).

Python values exchanged with the language backend and the Shopify API are
modelled by the JSON-like type `JValue`; a Python function that may raise is
modelled as a function into `Except String α` where the `String` is `str(e)`
of the raised exception.  External HTTP effects (the `shopify` library's
`find`/`save` calls) are modelled by an oracle structure `ShopifyAPI`, and the
process environment by `Env`.
-/

/-- JSON-like values: the dictionaries, lists, strings, numbers and booleans
the Python tools build and return. -/
inductive JValue where
  | str (s : String)
  | num (q : Rat)
  | bool (b : Bool)
  | null
  | arr (elems : List JValue)
  | obj (fields : List (String × JValue))

/-- True when the value is a string. -/
def JValue.isStr : JValue → Bool
  | .str _ => true
  | _ => false

/-- True when the value is a dictionary containing an `"error"` key mapped to
a string: the uniform failure payload shape of the six tools. -/
def hasErrorStr : JValue → Bool
  | .obj fields => fields.any fun f => f.1 == "error" && f.2.isStr
  | _ => false

/-- Process environment: the four environment variables the source reads.
`none` models an unset variable. -/
structure Env where
  shopify_shop_url : Option String
  shopify_access_token : Option String
  openai_api_key : Option String
  openai_api_base : Option String

/-- Python truthiness test `not x` for an optional string: true when the
variable is unset or set to the empty string. -/
def falsyStr (s : Option String) : Bool :=
  match s with
  | none => true
  | some v => v == ""

/-- Shopify product variant as read back from the API
(`shopify.Variant`). -/
structure Variant where
  id : Int
  title : String
  price : Rat
  sku : String
  inventory_quantity : Int
deriving DecidableEq

/-- Shopify product as read back from the API (`shopify.Product`).
Timestamp fields are kept as the strings `str(...)` produces. -/
structure Product where
  id : Int
  title : String
  handle : String
  status : String
  vendor : String
  product_type : String
  tags : String
  created_at : String
  updated_at : String
  variants : List Variant
deriving DecidableEq

/-- Shopify customer as read back from the API (`shopify.Customer`). -/
structure Customer where
  id : Int
  email : String
  first_name : String
  last_name : String
  phone : String
  total_spent : String
  orders_count : Int
  state : String
  created_at : String
deriving DecidableEq

/-- Customer summary embedded in an order. -/
structure OrderCustomer where
  id : Int
  email : String
  first_name : String
  last_name : String
deriving DecidableEq

/-- Shopify order as read back from the API (`shopify.Order`). -/
structure Order where
  id : Int
  email : String
  total_price : String
  created_at : String
  financial_status : String
  fulfillment_status : String
  customer : Option OrderCustomer
deriving DecidableEq

/-- Product fields assigned in `create_product` before saving
(`shopify.Variant()` filled in by the tool). -/
structure NewVariant where
  price : Rat
  inventory_quantity : Int
deriving DecidableEq

/-- Product under construction in `create_product` (`shopify.Product()`
filled in by the tool before `save()`). -/
structure NewProduct where
  title : String
  body_html : Option String
  vendor : Option String
  product_type : Option String
  tags : Option (List String)
  variants : List NewVariant
deriving DecidableEq

/-- Oracle for the external Shopify HTTP API: each method models one
`shopify` library call; `Except.error e` models the call raising an
exception with message `e`. `findProductById`/`findVariant` return `none`
when the lookup yields no (truthy) object; `saveVariant` returns the
boolean result of `variant.save()`; `saveProduct` returns `some id` when
`product.save()` returns true and the server assigned `id`, `none` when it
returns false. -/
structure ShopifyAPI where
  findProducts : Int → Except String (List Product)
  findProductById : Int → Except String (Option Product)
  findCustomers : Int → Except String (List Customer)
  findOrders : Int → Option String → Except String (List Order)
  findVariant : Int → Except String (Option Variant)
  saveVariant : Variant → Except String Bool
  saveProduct : NewProduct → Except String (Option Int)

/-- Embedding of `setup_shopify_session_from_env` (shopify_tools.py lines
9-23): reads `SHOPIFY_SHOP_URL` and `SHOPIFY_ACCESS_TOKEN`, raises
`ValueError` when either is unset/empty, otherwise normalises the shop URL
and returns the admin API base URL it configures the session with. -/
def setup_shopify_session_from_env (env : Env) : Except String String :=
  if falsyStr env.shopify_shop_url || falsyStr env.shopify_access_token then
    .error "SHOPIFY_SHOP_URL or SHOPIFY_ACCESS_TOKEN not set in environment"
  else
    let api_version := "2025-01"
    let shop_url := env.shopify_shop_url.getD ""
    let shop_url :=
      if shop_url.endsWith ".myshopify.com" then shop_url
      else shop_url ++ ".myshopify.com"
    .ok ("https://" ++ shop_url ++ "/admin/api/" ++ api_version ++ "/")

/-- The `try ... except Exception as e: return {"error": f"<pre>{str(e)}"}`
wrapper shared (with per-tool message text `pre`) by all six tools. -/
def catchErrors (pre : String) (body : Except String JValue) : JValue :=
  match body with
  | .ok v => v
  | .error e => .obj [("error", .str (pre ++ e))]

/-- Dictionary built for one product by `get_products`. -/
def productSummary (p : Product) : JValue :=
  .obj [("id", .num (p.id : Rat)), ("title", .str p.title),
        ("handle", .str p.handle), ("status", .str p.status),
        ("vendor", .str p.vendor), ("product_type", .str p.product_type),
        ("created_at", .str p.created_at), ("updated_at", .str p.updated_at)]

/-- Body of the `try` block of `get_products` (lines 36-49); an
`Except.error` of an inner call propagates, as the raised exception does in
Python. -/
def get_products_body (env : Env) (api : ShopifyAPI) (limit : Int) :
    Except String JValue :=
  match setup_shopify_session_from_env env with
  | .error e => .error e
  | .ok _ =>
    match api.findProducts limit with
    | .error e => .error e
    | .ok products => .ok (.arr (products.map productSummary))

/-- Embedding of the tool `get_products` (lines 25-51). -/
def get_products (env : Env) (api : ShopifyAPI) (limit : Int) : JValue :=
  catchErrors "Failed to fetch products: " (get_products_body env api limit)

/-- The source builds the `"variants"` field of `get_product_by_id` with a
set comprehension whose elements are dict literals (lines 77-86):
`{ { "id": variant.id, ... } for variant in product.variants }`.  Python
hashes each element as it is added to the set and a dict is unhashable, so
the comprehension raises `TypeError: unhashable type: 'dict'` as soon as
the product has at least one variant; iterating an empty variants list
builds the empty set without hashing anything. -/
def variants_set_comprehension (variants : List Variant) :
    Except String JValue :=
  match variants with
  | [] => .ok (.arr [])
  | _ :: _ => .error "unhashable type: 'dict'"

/-- Body of the `try` block of `get_product_by_id` (lines 64-89). -/
def get_product_by_id_body (env : Env) (api : ShopifyAPI) (product_id : Int) :
    Except String JValue :=
  match setup_shopify_session_from_env env with
  | .error e => .error e
  | .ok _ =>
    match api.findProductById product_id with
    | .error e => .error e
    | .ok none => .ok (.obj [("error", .str "Product not found")])
    | .ok (some product) =>
      match variants_set_comprehension product.variants with
      | .error e => .error e
      | .ok vs =>
        .ok (.obj [("id", .num (product.id : Rat)),
                   ("title", .str product.title),
                   ("handle", .str product.handle),
                   ("status", .str product.status),
                   ("vendor", .str product.vendor),
                   ("product_type", .str product.product_type),
                   ("tags", .str product.tags), ("variants", vs),
                   ("created_at", .str product.created_at),
                   ("updated_at", .str product.updated_at)])

/-- Embedding of the tool `get_product_by_id` (lines 53-91). -/
def get_product_by_id (env : Env) (api : ShopifyAPI) (product_id : Int) :
    JValue :=
  catchErrors ("Failed to fetch product " ++ toString product_id ++ ": ")
    (get_product_by_id_body env api product_id)

/-- Body of the `try` block of `get_customers` (lines 104-118). -/
def get_customers_body (env : Env) (api : ShopifyAPI) (limit : Int) :
    Except String JValue :=
  match setup_shopify_session_from_env env with
  | .error e => .error e
  | .ok _ =>
    match api.findCustomers limit with
    | .error e => .error e
    | .ok customers =>
      .ok (.arr (customers.map fun c =>
        .obj [("id", .num (c.id : Rat)), ("email", .str c.email),
              ("first_name", .str c.first_name),
              ("last_name", .str c.last_name),
              ("phone", .str c.phone), ("total_spent", .str c.total_spent),
              ("orders_count", .num (c.orders_count : Rat)),
              ("state", .str c.state), ("created_at", .str c.created_at)]))

/-- Embedding of the tool `get_customers` (lines 93-120). -/
def get_customers (env : Env) (api : ShopifyAPI) (limit : Int) : JValue :=
  catchErrors "Failed to fetch customers: " (get_customers_body env api limit)

/-- Dictionary built for one order by `get_orders`; the duplicated
`"created_at"` key of the Python dict literal collapses to a single entry
with the same value. -/
def orderSummary (o : Order) : JValue :=
  .obj [("id", .num (o.id : Rat)), ("email", .str o.email),
        ("total_price", .str o.total_price), ("created_at", .str o.created_at),
        ("financial_status", .str o.financial_status),
        ("fulfillment_status", .str o.fulfillment_status),
        ("customer",
          match o.customer with
          | some c =>
            .obj [("id", .num (c.id : Rat)), ("email", .str c.email),
                  ("first_name", .str c.first_name),
                  ("last_name", .str c.last_name)]
          | none => .null)]

/-- Body of the `try` block of `get_orders` (lines 134-156): the `status`
parameter is forwarded to `Order.find` only when it differs from `"any"`. -/
def get_orders_body (env : Env) (api : ShopifyAPI) (limit : Int)
    (status : String) : Except String JValue :=
  match setup_shopify_session_from_env env with
  | .error e => .error e
  | .ok _ =>
    match api.findOrders limit (if status == "any" then none else some status) with
    | .error e => .error e
    | .ok orders => .ok (.arr (orders.map orderSummary))

/-- Embedding of the tool `get_orders` (lines 122-158). -/
def get_orders (env : Env) (api : ShopifyAPI) (limit : Int) (status : String) :
    JValue :=
  catchErrors "Failed to fetch orders: " (get_orders_body env api limit status)

/-- Body of the `try` block of `update_product_inventory` (lines 172-190):
the looked-up variant's `inventory_quantity` attribute is overwritten with
`quantity` before `save()` and read back for the `"new_quantity"` field. -/
def update_product_inventory_body (env : Env) (api : ShopifyAPI)
    (variant_id quantity : Int) : Except String JValue :=
  match setup_shopify_session_from_env env with
  | .error e => .error e
  | .ok _ =>
    match api.findVariant variant_id with
    | .error e => .error e
    | .ok none => .ok (.obj [("error", .str "Variant not found")])
    | .ok (some found) =>
      let variant := { found with inventory_quantity := quantity }
      match api.saveVariant variant with
      | .error e => .error e
      | .ok true =>
        .ok (.obj [("success", .bool true),
                   ("variant_id", .num (variant.id : Rat)),
                   ("variant_title", .str variant.title),
                   ("new_quantity", .num (variant.inventory_quantity : Rat)),
                   ("message",
                     .str ("Inventory updated successfully for variant "
                       ++ toString variant_id))])
      | .ok false => .ok (.obj [("error", .str "Failed to update inventory")])

/-- Embedding of the tool `update_product_inventory` (lines 160-190). -/
def update_product_inventory (env : Env) (api : ShopifyAPI)
    (variant_id quantity : Int) : JValue :=
  catchErrors ("Failed to update inventory for variant "
      ++ toString variant_id ++ ": ")
    (update_product_inventory_body env api variant_id quantity)

/-- Variant assembled by `create_product` (lines 218-220): price defaults
to `0.0` when the optional argument is omitted, inventory quantity is the
hard-coded default `0`. -/
def build_new_variant (price : Option Rat) : NewVariant :=
  { price := price.getD 0, inventory_quantity := 0 }

/-- Product assembled by `create_product` before `save()` (lines 211-221):
exactly the one variant built by `build_new_variant`. -/
def build_new_product (title : String)
    (body_html vendor product_type : Option String) (price : Option Rat)
    (tags : Option (List String)) : NewProduct :=
  { title := title, body_html := body_html, vendor := vendor,
    product_type := product_type, tags := tags,
    variants := [build_new_variant price] }

/-- Optional string attribute rendered into the result dictionary. -/
def optStr (s : Option String) : JValue :=
  match s with
  | some v => .str v
  | none => .null

/-- Optional tag-list attribute rendered into the result dictionary. -/
def optTags (tags : Option (List String)) : JValue :=
  match tags with
  | some ts => .arr (ts.map .str)
  | none => .null

/-- Body of the `try` block of `create_product` (lines 209-237). -/
def create_product_body (env : Env) (api : ShopifyAPI) (title : String)
    (body_html vendor product_type : Option String) (price : Option Rat)
    (tags : Option (List String)) : Except String JValue :=
  match setup_shopify_session_from_env env with
  | .error e => .error e
  | .ok _ =>
    match api.saveProduct
        (build_new_product title body_html vendor product_type price tags) with
    | .error e => .error e
    | .ok (some id) =>
      .ok (.obj [("success", .bool true),
                 ("product",
                   .obj [("id", .num (id : Rat)), ("title", .str title),
                         ("body_html", optStr body_html),
                         ("vendor", optStr vendor),
                         ("product_type", optStr product_type),
                         ("tags", optTags tags)]),
                 ("message", .str "Product created successfully")])
    | .ok none => .ok (.obj [("error", .str "Failed to create product")])

/-- Embedding of the tool `create_product` (lines 193-239). -/
def create_product (env : Env) (api : ShopifyAPI) (title : String)
    (body_html vendor product_type : Option String) (price : Option Rat)
    (tags : Option (List String)) : JValue :=
  catchErrors "Failed to create product: "
    (create_product_body env api title body_html vendor product_type price tags)

/-!
Model of the agent loop of `src/shopify_agent.py`: the compiled StateGraph
has an `agent` node (backend invocation appending one AI reply), a
conditional edge given by `should_continue`, and a `tools` node (the
library `ToolNode` over `SHOPIFY_TOOLS`, appending one tool message per
requested tool call, in request order), with an edge from `tools` back to
`agent`.
-/

/-- One requested tool call carried by an AI message: a tool name and a
JSON argument object. -/
structure ToolCall where
  name : String
  args : JValue

/-- Transcript messages: `human` is a `HumanMessage`, `ai` an `AIMessage`
carrying its (possibly empty) `tool_calls` list, `tool` a `ToolMessage`
carrying one tool's result payload and the originating tool name.  An
AssistantText entry of the spec is `ai` with empty `tool_calls`; an
AssistantActionRequest entry is `ai` with non-empty `tool_calls`; an
ActionResult entry is `tool`. -/
inductive Message where
  | human (content : String)
  | ai (content : String) (tool_calls : List ToolCall)
  | tool (payload : JValue) (name : String)

/-- Content of a message, as `.content` reads it in Python; for a tool
message the payload stands in for its serialised content. -/
def Message.content : Message → String
  | .human c => c
  | .ai c _ => c
  | .tool _ n => n

/-- Embedding of `should_continue` (shopify_agent.py lines 50-57): route to
the tools node exactly when the last message has a non-empty `tool_calls`
attribute (only AI messages carry it); an empty transcript routes to end. -/
def should_continue (messages : List Message) : String :=
  match messages.getLast? with
  | some (.ai _ tool_calls) => if tool_calls.isEmpty then "end" else "tools"
  | _ => "end"

/-- The tool messages the `ToolNode` appends for one AI reply: one result
per requested call, in request order, produced by the executor `exec`. -/
def toolResults (exec : ToolCall → JValue) (tcs : List ToolCall) :
    List Message :=
  tcs.map fun tc => Message.tool (exec tc) tc.name

/-- Outcome of running the graph with a bounded amount of fuel: `done` when
the loop reached the end edge (final reply text and final transcript),
`stillRunning` when the fuel ran out first.  The graph has no other exit:
in particular no turn-limit abort exists. -/
inductive RunOutcome where
  | done (finalText : String) (transcript : List Message)
  | stillRunning (transcript : List Message)

/-- Transcript carried by an outcome. -/
def RunOutcome.transcript : RunOutcome → List Message
  | .done _ t => t
  | .stillRunning t => t

/-- True when the outcome is `done`. -/
def RunOutcome.isDone : RunOutcome → Bool
  | .done _ _ => true
  | .stillRunning _ => false

/-- Fuel-indexed run of the compiled graph starting at the `agent` node
(shopify_agent.py lines 59-77): invoke the backend on the transcript,
append its reply; if `should_continue` routes to `"tools"`, append one
tool result per requested call in order and loop back to `agent`,
otherwise stop and return the reply's text.  The backend is a function
from the transcript to the reply's content and `tool_calls` (deterministic,
matching temperature 0). -/
def runLoop (backend : List Message → String × List ToolCall)
    (exec : ToolCall → JValue) : Nat → List Message → RunOutcome
  | 0, t => .stillRunning t
  | fuel + 1, t =>
    if should_continue (t ++ [Message.ai (backend t).1 (backend t).2]) == "tools" then
      runLoop backend exec fuel
        (t ++ [Message.ai (backend t).1 (backend t).2] ++ toolResults exec (backend t).2)
    else
      .done (backend t).1 (t ++ [Message.ai (backend t).1 (backend t).2])

/-- Value returned by `ShopifyAgentManager.chat` from the final state
(shopify_agent.py line 105): the last message's content when the messages
list is non-empty, else the fallback string. -/
def chatReturn (t : List Message) : String :=
  if t.isEmpty then "No response from agent"
  else ((t.getLast?).map Message.content).getD ""

/-- Embedding of `ShopifyAgentManager.chat` (lines 87-105): the user
message is appended to the thread's prior transcript and the graph is
invoked; when the run completes, the return value and the final transcript
(persisted by the checkpointer) are produced; a run that never reaches the
end edge never returns (`none`). -/
def chat (backend : List Message → String × List ToolCall)
    (exec : ToolCall → JValue) (fuel : Nat) (prior : List Message)
    (message : String) : Option (String × List Message) :=
  match runLoop backend exec fuel (prior ++ [Message.human message]) with
  | .done _ t => some (chatReturn t, t)
  | .stillRunning _ => none

/-- Outcome of the process entry point `main`. -/
inductive MainOutcome where
  | configError (msg : String)
  | startupRaise (msg : String)
  | ready
deriving DecidableEq

/-- Embedding of `create_shopify_agent`'s configuration reading
(shopify_agent.py lines 24-27): raises `ValueError` when
`OPENAI_API_BASE` is unset; the Shopify credentials are not consulted. -/
def create_shopify_agent (env : Env) : Except String Unit :=
  if falsyStr env.openai_api_base then
    .error "OPENAI_API_BASE environment variable is not set"
  else
    .ok ()

/-- Embedding of `main` (shopify_agent.py lines 130-141): checks only
`OPENAI_API_KEY`; when it is set, constructs the agent (which may raise on
a missing `OPENAI_API_BASE`) and proceeds to the example conversation.
The Shopify credentials are never checked here. -/
def main_entry (env : Env) : MainOutcome :=
  if falsyStr env.openai_api_key then
    .configError "Please make sure OPENAI_API_KEY is set in the environment variables:"
  else
    match create_shopify_agent env with
    | .error e => .startupRaise e
    | .ok _ => .ready

/-- Scanner for the transcript invariant: processes the transcript with a
list of pending requested calls; inside a pending block only the matching
tool results may appear, and the scan returns the pending calls remaining
at the end (`none` on a violation). -/
def checkAux : List ToolCall → List Message → Option (List ToolCall)
  | pending, [] => some pending
  | [], .ai _ tcs :: rest => checkAux tcs rest
  | [], .human _ :: rest => checkAux [] rest
  | [], .tool _ _ :: rest => checkAux [] rest
  | tc :: tcs, .tool _ n :: rest =>
    if n == tc.name then checkAux tcs rest else none
  | _ :: _, .ai _ _ :: _ => none
  | _ :: _, .human _ :: _ => none

/-- The spec's transcript invariant: every AI message with a non-empty
`tool_calls` list is immediately followed, before any further AI or human
message, by exactly one tool result per requested call, in request order,
and no request is left without its results at the end of the transcript. -/
def transcriptOK (t : List Message) : Bool :=
  match checkAux [] t with
  | some [] => true
  | _ => false

/-!
Concrete fixtures: environments, a stubbed API oracle, backends and
executors used in scenario statements and witnesses.
-/

/-- Environment with both commerce-platform credentials missing and the
generation-backend variables set. -/
def envNoShopify : Env :=
  ⟨none, none, some "test-key", some "https://example.invalid/v1"⟩

/-- Environment with every variable set. -/
def envOK : Env :=
  ⟨some "shop", some "token", some "test-key", some "https://example.invalid/v1"⟩

/-- Environment missing the generation-backend key. -/
def envNoKey : Env :=
  ⟨some "shop", some "token", none, some "https://example.invalid/v1"⟩

/-- Environment missing the generation-backend base URL. -/
def envNoBase : Env := ⟨some "shop", some "token", some "test-key", none⟩

/-- Product fixture with a single variant. -/
def prodFixture : Product :=
  ⟨1, "Widget", "widget", "active", "Acme", "Gadget", "", "2025-01-01",
   "2025-01-02", [⟨11, "Default Title", 5, "SKU-1", 3⟩]⟩

/-- Stubbed API oracle: product lookups succeed with `prodFixture`, the
variant lookup reports not-found, saves succeed. -/
def apiStub : ShopifyAPI :=
  { findProducts := fun _ => .ok []
    findProductById := fun _ => .ok (some prodFixture)
    findCustomers := fun _ => .ok []
    findOrders := fun _ _ => .ok []
    findVariant := fun _ => .ok none
    saveVariant := fun _ => .ok true
    saveProduct := fun _ => .ok (some 42) }

/-- Stubbed API oracle whose variant lookup succeeds, echoing the requested
id. -/
def apiVariantFound : ShopifyAPI :=
  { apiStub with
    findVariant := fun vid => .ok (some ⟨vid, "Default Title", 10, "SKU-1", 3⟩) }

/-- Backend that never requests an action. -/
def plainBackend : List Message → String × List ToolCall :=
  fun _ => ("Hello", [])

/-- Backend that requests one more action on every reply. -/
def alwaysToolBackend : List Message → String × List ToolCall :=
  fun _ => ("", [⟨"get_products", .obj [("limit", .num 10)]⟩])

/-- Executor returning an empty list payload for every call. -/
def nullExec : ToolCall → JValue := fun _ => .arr []

/-- The inventory-update request of the spec's not-found scenario. -/
def updateCall : ToolCall :=
  ⟨"update_product_inventory",
   .obj [("variant_id", .num 999999), ("quantity", .num 5)]⟩

/-- Backend for the not-found scenario: requests the inventory update on
the first turn and, on seeing the appended tool result, replies with plain
text. -/
def notFoundBackend : List Message → String × List ToolCall :=
  fun t =>
    if t.length ≤ 1 then ("", [updateCall])
    else ("The variant was not found.", [])

/-- Backend for the listing scenario: requests a product listing on the
first turn, then replies with plain text. -/
def listBackend : List Message → String × List ToolCall :=
  fun t =>
    if t.length ≤ 1 then ("", [⟨"get_products", .obj [("limit", .num 5)]⟩])
    else ("Here are the products.", [])

/-- Integer read from a JSON number argument. -/
def JValue.asInt : JValue → Option Int
  | .num q => if q.den == 1 then some q.num else none
  | _ => none

/-- Field lookup in a JSON object's field list. -/
def lookupField : List (String × JValue) → String → Option JValue
  | [], _ => none
  | (k, v) :: rest, key => if k == key then some v else lookupField rest key

/-- Executor dispatching `update_product_inventory` requests against a
given environment and API oracle, decoding the two integer arguments as
the library tool node does before invoking the tool. -/
def execUpdateInventory (env : Env) (api : ShopifyAPI) (tc : ToolCall) :
    JValue :=
  match tc.args with
  | .obj fields =>
    match (lookupField fields "variant_id").bind JValue.asInt,
          (lookupField fields "quantity").bind JValue.asInt with
    | some vid, some q =>
      if tc.name == "update_product_inventory" then
        update_product_inventory env api vid q
      else .null
    | _, _ => .null
  | _ => .null

/-!
Helper lemmas about the loop and the transcript invariant.
-/

theorem should_continue_concat (t : List Message) (c : String)
    (tcs : List ToolCall) :
    should_continue (t ++ [Message.ai c tcs]) =
      if tcs.isEmpty then "end" else "tools" := by
  unfold should_continue
  rw [List.getLast?_concat]

theorem runLoop_succ_of_empty (b : List Message → String × List ToolCall)
    (e : ToolCall → JValue) (f : Nat) (t : List Message)
    (h : (b t).2 = []) :
    runLoop b e (f + 1) t =
      .done (b t).1 (t ++ [Message.ai (b t).1 (b t).2]) := by
  unfold runLoop
  rw [should_continue_concat, h]
  simp

theorem runLoop_succ_of_nonempty (b : List Message → String × List ToolCall)
    (e : ToolCall → JValue) (f : Nat) (t : List Message)
    (h : (b t).2 ≠ []) :
    runLoop b e (f + 1) t =
      runLoop b e f
        (t ++ [Message.ai (b t).1 (b t).2] ++ toolResults e (b t).2) := by
  have hne : (b t).2.isEmpty = false := by simp [List.isEmpty_iff, h]
  conv_lhs => rw [runLoop]
  rw [should_continue_concat, hne]
  simp

theorem checkAux_append (s : List Message) :
    ∀ (t : List Message) (p : List ToolCall),
      checkAux p (t ++ s) = (checkAux p t).bind fun p' => checkAux p' s := by
  intro t
  induction t with
  | nil => intro p; simp [checkAux]
  | cons m rest ih =>
    intro p
    match p, m with
    | [], .ai c tcs => simp [checkAux, ih]
    | [], .human c => simp [checkAux, ih]
    | [], .tool payload n => simp [checkAux, ih]
    | tc :: tcs, .ai c tcs2 => simp [checkAux]
    | tc :: tcs, .human c => simp [checkAux]
    | tc :: tcs, .tool payload n =>
      by_cases hn : n == tc.name <;> simp [checkAux, hn, ih]

theorem checkAux_toolResults (e : ToolCall → JValue) :
    ∀ tcs : List ToolCall, checkAux tcs (toolResults e tcs) = some [] := by
  intro tcs
  induction tcs with
  | nil => simp [toolResults, checkAux]
  | cons tc rest ih => simp [toolResults, checkAux] at ih ⊢; exact ih

theorem transcriptOK_iff (t : List Message) :
    transcriptOK t = true ↔ checkAux [] t = some [] := by
  unfold transcriptOK
  cases h : checkAux [] t with
  | none => simp
  | some p => cases p <;> simp

theorem transcriptOK_step (t : List Message) (c : String)
    (tcs : List ToolCall) (e : ToolCall → JValue)
    (h : transcriptOK t = true) :
    transcriptOK (t ++ [Message.ai c tcs] ++ toolResults e tcs) = true := by
  rw [transcriptOK_iff] at h ⊢
  rw [checkAux_append, checkAux_append, h]
  simp [checkAux, checkAux_toolResults]

theorem transcriptOK_human (t : List Message) (c : String)
    (h : transcriptOK t = true) :
    transcriptOK (t ++ [Message.human c]) = true := by
  rw [transcriptOK_iff] at h ⊢
  rw [checkAux_append, h]
  simp [checkAux]

theorem runLoop_done_transcriptOK (b : List Message → String × List ToolCall)
    (e : ToolCall → JValue) :
    ∀ (fuel : Nat) (t : List Message) (text : String) (t' : List Message),
      transcriptOK t = true → runLoop b e fuel t = .done text t' →
      transcriptOK t' = true := by
  intro fuel
  induction fuel with
  | zero =>
    intro t text t' h hrun
    simp [runLoop] at hrun
  | succ f ih =>
    intro t text t' h hrun
    by_cases hb : (b t).2 = []
    · rw [runLoop_succ_of_empty b e f t hb] at hrun
      cases hrun
      have := transcriptOK_step t (b t).1 (b t).2 e h
      simpa [hb, toolResults] using this
    · rw [runLoop_succ_of_nonempty b e f t hb] at hrun
      exact ih _ text t' (transcriptOK_step t (b t).1 (b t).2 e h) hrun

theorem runLoop_transcript_extends (b : List Message → String × List ToolCall)
    (e : ToolCall → JValue) :
    ∀ (fuel : Nat) (t : List Message),
      ∃ s, (runLoop b e fuel t).transcript = t ++ s := by
  intro fuel
  induction fuel with
  | zero => intro t; exact ⟨[], by simp [runLoop, RunOutcome.transcript]⟩
  | succ f ih =>
    intro t
    by_cases hb : (b t).2 = []
    · rw [runLoop_succ_of_empty b e f t hb]
      exact ⟨[Message.ai (b t).1 (b t).2], rfl⟩
    · rw [runLoop_succ_of_nonempty b e f t hb]
      obtain ⟨s, hs⟩ := ih (t ++ [Message.ai (b t).1 (b t).2] ++ toolResults e (b t).2)
      exact ⟨[Message.ai (b t).1 (b t).2] ++ toolResults e (b t).2 ++ s, by
        rw [hs]; simp⟩

theorem hasErrorStr_catchErrors (pre : String) (body : Except String JValue)
    (e : String) (h : body = .error e) :
    hasErrorStr (catchErrors pre body) = true := by
  rw [h]
  simp [catchErrors, hasErrorStr, JValue.isStr]

theorem runLoop_alwaysTool_stillRunning (e : ToolCall → JValue) :
    ∀ (f : Nat) (t : List Message),
      ∃ t', runLoop alwaysToolBackend e f t = .stillRunning t' ∧
        t'.length = t.length + 2 * f := by
  intro f
  induction f with
  | zero => intro t; exact ⟨t, by simp [runLoop], by simp⟩
  | succ g ih =>
    intro t
    have hb : (alwaysToolBackend t).2 ≠ [] := by simp [alwaysToolBackend]
    rw [runLoop_succ_of_nonempty alwaysToolBackend e g t hb]
    obtain ⟨t', h, hl⟩ := ih (t ++ [Message.ai (alwaysToolBackend t).1
      (alwaysToolBackend t).2] ++ toolResults e (alwaysToolBackend t).2)
    refine ⟨t', h, ?_⟩
    rw [hl]
    simp [alwaysToolBackend, toolResults]
    ring

/-- C1: for each of the six registered actions, and any environment, API
behavior and arguments, whenever the underlying execution (the body of the
action's `try` block) raises an exception, the action does not propagate
it: it returns a dictionary whose `"error"` key holds a message string.
(The wrapped actions return a plain `JValue`, so by construction no
exception can reach the conversation loop's caller.) -/
theorem tools_convert_exceptions_to_error_payloads (env : Env)
    (api : ShopifyAPI) :
    (∀ limit e, get_products_body env api limit = .error e →
      hasErrorStr (get_products env api limit) = true) ∧
    (∀ pid e, get_product_by_id_body env api pid = .error e →
      hasErrorStr (get_product_by_id env api pid) = true) ∧
    (∀ limit e, get_customers_body env api limit = .error e →
      hasErrorStr (get_customers env api limit) = true) ∧
    (∀ limit status e, get_orders_body env api limit status = .error e →
      hasErrorStr (get_orders env api limit status) = true) ∧
    (∀ vid q e, update_product_inventory_body env api vid q = .error e →
      hasErrorStr (update_product_inventory env api vid q) = true) ∧
    (∀ title bh v pt price tags e,
      create_product_body env api title bh v pt price tags = .error e →
      hasErrorStr (create_product env api title bh v pt price tags) = true) := by
  refine ⟨?_, ?_, ?_, ?_, ?_, ?_⟩
  · intro limit e h; exact hasErrorStr_catchErrors _ _ _ h
  · intro pid e h; exact hasErrorStr_catchErrors _ _ _ h
  · intro limit e h; exact hasErrorStr_catchErrors _ _ _ h
  · intro limit status e h; exact hasErrorStr_catchErrors _ _ _ h
  · intro vid q e h; exact hasErrorStr_catchErrors _ _ _ h
  · intro title bh v pt price tags e h; exact hasErrorStr_catchErrors _ _ _ h

/-- Witness for C1: with both Shopify credentials unset, every one of the
six action bodies raises, and every action returns an error-keyed
dictionary. -/
theorem tools_convert_exceptions_to_error_payloads_witness :
    hasErrorStr (get_products envNoShopify apiStub 10) = true ∧
    hasErrorStr (get_product_by_id envNoShopify apiStub 1) = true ∧
    hasErrorStr (get_customers envNoShopify apiStub 10) = true ∧
    hasErrorStr (get_orders envNoShopify apiStub 10 "any") = true ∧
    hasErrorStr (update_product_inventory envNoShopify apiStub 999999 5) = true ∧
    hasErrorStr (create_product envNoShopify apiStub "Widget" none none none
      none none) = true :=
  ⟨(tools_convert_exceptions_to_error_payloads envNoShopify apiStub).1 10 _ rfl,
   (tools_convert_exceptions_to_error_payloads envNoShopify apiStub).2.1 1 _ rfl,
   (tools_convert_exceptions_to_error_payloads envNoShopify apiStub).2.2.1 10 _ rfl,
   (tools_convert_exceptions_to_error_payloads envNoShopify apiStub).2.2.2.1 10 "any" _ rfl,
   (tools_convert_exceptions_to_error_payloads envNoShopify apiStub).2.2.2.2.1 999999 5 _ rfl,
   (tools_convert_exceptions_to_error_payloads envNoShopify apiStub).2.2.2.2.2 "Widget" none none none none none _ rfl⟩

/-- C3 (code bug): whenever the session setup succeeds and the product
lookup succeeds with a product that has at least one variant,
`get_product_by_id` returns an error payload — the set comprehension over
dict literals building the `"variants"` field raises
`TypeError: unhashable type: 'dict'` — instead of the documented product
record including its variants. -/
theorem get_product_by_id_errors_on_any_variant (env : Env)
    (api : ShopifyAPI) (pid : Int) (product : Product) (u : String)
    (hsetup : setup_shopify_session_from_env env = .ok u)
    (hfind : api.findProductById pid = .ok (some product))
    (hvars : product.variants ≠ []) :
    get_product_by_id env api pid =
      .obj [("error", .str ("Failed to fetch product " ++ toString pid ++
        ": " ++ "unhashable type: 'dict'"))] := by
  obtain ⟨v, vs, hv⟩ := List.exists_cons_of_ne_nil hvars
  simp [get_product_by_id, get_product_by_id_body, hsetup, hfind, hv,
        variants_set_comprehension, catchErrors]

/-- Witness for C3, at the product id used in the repository's own example
run: the stubbed lookup returns a one-variant product and the action
returns the TypeError payload. -/
theorem get_product_by_id_errors_on_any_variant_witness :
    get_product_by_id envOK apiStub 8488292647068 =
      .obj [("error", .str ("Failed to fetch product 8488292647068: " ++
        "unhashable type: 'dict'"))] :=
  get_product_by_id_errors_on_any_variant envOK apiStub 8488292647068
    prodFixture "https://shop.myshopify.com/admin/api/2025-01/" rfl rfl
    (by simp [prodFixture])

/-- C4 counterexample: with the generation-backend variables set and both
commerce-platform credentials unset, the entry point proceeds past startup
without any fatal configuration error, and the missing credentials surface
later as a per-action error payload — contradicting the claim that the
absence of either credential pair is fatal before any session starts. -/
theorem startup_ignores_shopify_credentials_cex :
    main_entry envNoShopify = .ready ∧
    get_products envNoShopify apiStub 10 =
      .obj [("error", .str "Failed to fetch products: SHOPIFY_SHOP_URL or SHOPIFY_ACCESS_TOKEN not set in environment")] :=
  ⟨rfl, rfl⟩

/-- C4 (amended): at startup only the generation-backend configuration is
examined — a missing `OPENAI_API_KEY` is reported by `main` before any
agent is created, and a missing `OPENAI_API_BASE` raises during agent
creation — while the commerce-platform credentials are read inside each
action body at call time, their absence surfacing as a per-action error
payload. -/
theorem startup_checks_generation_backend_only (env : Env) :
    (falsyStr env.openai_api_key = true →
      main_entry env = .configError
        "Please make sure OPENAI_API_KEY is set in the environment variables:") ∧
    (falsyStr env.openai_api_key = false →
      falsyStr env.openai_api_base = true →
      main_entry env = .startupRaise
        "OPENAI_API_BASE environment variable is not set") ∧
    (∀ api limit,
      (falsyStr env.shopify_shop_url || falsyStr env.shopify_access_token)
        = true →
      get_products env api limit =
        .obj [("error", .str "Failed to fetch products: SHOPIFY_SHOP_URL or SHOPIFY_ACCESS_TOKEN not set in environment")]) := by
  refine ⟨?_, ?_, ?_⟩
  · intro h
    simp [main_entry, h]
  · intro hk hb
    simp [main_entry, hk, create_shopify_agent, hb]
  · intro api limit h
    simp [get_products, get_products_body, setup_shopify_session_from_env, h,
          catchErrors]

/-- Witness for the amended C4, at the three concrete environments. -/
theorem startup_checks_generation_backend_only_witness :
    main_entry envNoKey = .configError
      "Please make sure OPENAI_API_KEY is set in the environment variables:" ∧
    main_entry envNoBase = .startupRaise
      "OPENAI_API_BASE environment variable is not set" ∧
    get_products envNoShopify apiStub 10 =
      .obj [("error", .str "Failed to fetch products: SHOPIFY_SHOP_URL or SHOPIFY_ACCESS_TOKEN not set in environment")] :=
  ⟨(startup_checks_generation_backend_only envNoKey).1 rfl,
   (startup_checks_generation_backend_only envNoBase).2.1 rfl rfl,
   (startup_checks_generation_backend_only envNoShopify).2.2 apiStub 10 rfl⟩

/-- C9: the variant assembled by `create_product` and saved as the
product's only variant has price `0.0` when the optional price argument is
omitted, and inventory quantity `0` in every case. -/
theorem create_product_variant_defaults (title : String)
    (body_html vendor product_type : Option String)
    (tags : Option (List String)) :
    (build_new_product title body_html vendor product_type none tags).variants
      = [{ price := 0, inventory_quantity := 0 }] ∧
    ∀ price : Option Rat,
      ((build_new_product title body_html vendor product_type price
        tags).variants.map fun vt => vt.inventory_quantity) = [0] :=
  ⟨rfl, fun _ => rfl⟩

/-- C2: for every session (any prior transcript satisfying the invariant)
and every completed `chat` call, the resulting transcript satisfies the
request/result invariant: every AI message with a non-empty `tool_calls`
list is immediately followed, before any further AI text, by exactly one
tool result per requested action, in request order. -/
theorem chat_transcript_request_result_invariant
    (b : List Message → String × List ToolCall) (e : ToolCall → JValue)
    (fuel : Nat) (prior : List Message) (msg out : String)
    (t' : List Message)
    (hprior : transcriptOK prior = true)
    (hchat : chat b e fuel prior msg = some (out, t')) :
    transcriptOK t' = true := by
  unfold chat at hchat
  cases hrun : runLoop b e fuel (prior ++ [Message.human msg]) with
  | stillRunning t2 =>
    rw [hrun] at hchat
    exact Option.noConfusion hchat
  | done text t2 =>
    rw [hrun] at hchat
    have ht : t2 = t' := congrArg Prod.snd (Option.some.inj hchat)
    subst ht
    exact runLoop_done_transcriptOK b e fuel (prior ++ [Message.human msg])
      text t2 (transcriptOK_human prior msg hprior) hrun

/-- Witness for C2: the spec's listing scenario — user message, one
requested listing, its single result, final text — satisfies the
invariant. -/
theorem chat_transcript_request_result_invariant_witness :
    transcriptOK
      [Message.human "list 5 products",
       Message.ai "" [⟨"get_products", .obj [("limit", .num 5)]⟩],
       Message.tool (.arr []) "get_products",
       Message.ai "Here are the products." []] = true :=
  chat_transcript_request_result_invariant listBackend nullExec 2 []
    "list 5 products" "Here are the products."
    [Message.human "list 5 products",
     Message.ai "" [⟨"get_products", .obj [("limit", .num 5)]⟩],
     Message.tool (.arr []) "get_products",
     Message.ai "Here are the products." []] rfl rfl

/-- C5: after the backend's reply is appended, `should_continue` routes to
the tools node exactly when the reply carries a non-empty `tool_calls`
list; accordingly one loop step dispatches the requested actions when that
list is non-empty and otherwise terminates returning the reply's text. -/
theorem loop_dispatches_iff_tool_calls_nonempty
    (b : List Message → String × List ToolCall) (e : ToolCall → JValue)
    (t : List Message) (c : String) (tcs : List ToolCall) (f : Nat) :
    (should_continue (t ++ [Message.ai c tcs]) = "tools" ↔ tcs ≠ []) ∧
    ((b t).2 = [] →
      runLoop b e (f + 1) t =
        .done (b t).1 (t ++ [Message.ai (b t).1 (b t).2])) ∧
    ((b t).2 ≠ [] →
      runLoop b e (f + 1) t =
        runLoop b e f
          (t ++ [Message.ai (b t).1 (b t).2] ++ toolResults e (b t).2)) := by
  refine ⟨?_, runLoop_succ_of_empty b e f t, runLoop_succ_of_nonempty b e f t⟩
  rw [should_continue_concat]
  cases tcs with
  | nil => simp
  | cons tc rest => simp

/-- Witness for C5: a reply with no tool calls ends the loop with its
text; a reply with one tool call dispatches it and loops. -/
theorem loop_dispatches_iff_tool_calls_nonempty_witness :
    runLoop plainBackend nullExec 1 [] =
      .done "Hello" [Message.ai "Hello" []] ∧
    runLoop alwaysToolBackend nullExec 1 [] =
      runLoop alwaysToolBackend nullExec 0
        ([Message.ai "" [⟨"get_products", .obj [("limit", .num 10)]⟩]] ++
          toolResults nullExec [⟨"get_products", .obj [("limit", .num 10)]⟩]) :=
  ⟨(loop_dispatches_iff_tool_calls_nonempty plainBackend nullExec [] "x" []
      0).2.1 rfl,
   (loop_dispatches_iff_tool_calls_nonempty alwaysToolBackend nullExec [] "x"
      [] 0).2.2 (by simp [alwaysToolBackend])⟩

/-- C6: the reason/act loop has no iteration cap: under a backend that
keeps requesting actions, after any number `n + 1` of full reason/act
cycles the run is still going — it has appended two messages per cycle and
has not terminated, and the outcome type has no turn-limit abort at all. -/
theorem loop_has_no_iteration_cap (n : Nat) (e : ToolCall → JValue) :
    (runLoop alwaysToolBackend e (n + 1) []).isDone = false ∧
    (runLoop alwaysToolBackend e (n + 1) []).transcript.length
      = 2 * (n + 1) := by
  obtain ⟨t', h, hl⟩ := runLoop_alwaysTool_stillRunning e (n + 1) []
  rw [h]
  refine ⟨rfl, ?_⟩
  simpa [RunOutcome.transcript] using hl

/-- C7: when the session setup, the variant lookup (yielding the variant
with the requested id) and the save all succeed, `update_product_inventory`
returns `success = true`, the variant id and `new_quantity` equal to the
requested quantity; on a raised exception, a failed lookup or a failed
save it returns an error payload instead. -/
theorem update_product_inventory_success_payload (env : Env)
    (api : ShopifyAPI) (variant_id quantity : Int) :
    (∀ u v, setup_shopify_session_from_env env = .ok u →
      api.findVariant variant_id = .ok (some v) → v.id = variant_id →
      api.saveVariant { v with inventory_quantity := quantity } = .ok true →
      update_product_inventory env api variant_id quantity =
        .obj [("success", .bool true),
              ("variant_id", .num (variant_id : Rat)),
              ("variant_title", .str v.title),
              ("new_quantity", .num (quantity : Rat)),
              ("message", .str ("Inventory updated successfully for variant "
                ++ toString variant_id))]) ∧
    (∀ e, update_product_inventory_body env api variant_id quantity
        = .error e →
      hasErrorStr (update_product_inventory env api variant_id quantity)
        = true) ∧
    (∀ u, setup_shopify_session_from_env env = .ok u →
      api.findVariant variant_id = .ok none →
      update_product_inventory env api variant_id quantity =
        .obj [("error", .str "Variant not found")]) ∧
    (∀ u v, setup_shopify_session_from_env env = .ok u →
      api.findVariant variant_id = .ok (some v) →
      api.saveVariant { v with inventory_quantity := quantity } = .ok false →
      update_product_inventory env api variant_id quantity =
        .obj [("error", .str "Failed to update inventory")]) := by
  refine ⟨?_, ?_, ?_, ?_⟩
  · intro u v hsetup hfind hid hsave
    rw [hid] at hsave
    simp [update_product_inventory, update_product_inventory_body, hsetup,
          hfind, hsave, catchErrors, hid]
  · intro e h
    exact hasErrorStr_catchErrors _ _ _ h
  · intro u hsetup hfind
    simp [update_product_inventory, update_product_inventory_body, hsetup,
          hfind, catchErrors]
  · intro u v hsetup hfind hsave
    simp [update_product_inventory, update_product_inventory_body, hsetup,
          hfind, hsave, catchErrors]

/-- Witness for C7: against the oracle whose variant lookup echoes the
requested id and whose save succeeds, updating variant 7 to quantity 25
yields the success payload. -/
theorem update_product_inventory_success_payload_witness :
    update_product_inventory envOK apiVariantFound 7 25 =
      .obj [("success", .bool true), ("variant_id", .num 7),
            ("variant_title", .str "Default Title"),
            ("new_quantity", .num 25),
            ("message",
              .str "Inventory updated successfully for variant 7")] :=
  (update_product_inventory_success_payload envOK apiVariantFound 7 25).1
    "https://shop.myshopify.com/admin/api/2025-01/"
    ⟨7, "Default Title", 10, "SKU-1", 3⟩ rfl rfl rfl rfl

/-- C8: a variant lookup that reports not-found (yields no value) makes
`update_product_inventory` return exactly `{error: "Variant not found"}`
without raising, and in the scenario run the loop appends that payload as
the action's result and still completes by invoking the backend again,
which produces the final text. -/
theorem update_variant_not_found_payload_loop_continues (env : Env)
    (api : ShopifyAPI) (variant_id quantity : Int) (u : String)
    (hsetup : setup_shopify_session_from_env env = .ok u)
    (hfind : api.findVariant variant_id = .ok none) :
    update_product_inventory env api variant_id quantity =
      .obj [("error", .str "Variant not found")] ∧
    runLoop notFoundBackend (execUpdateInventory envOK apiStub) 2
        [Message.human "Set the inventory of variant 999999 to 5"] =
      .done "The variant was not found."
        [Message.human "Set the inventory of variant 999999 to 5",
         Message.ai "" [updateCall],
         Message.tool (.obj [("error", .str "Variant not found")])
           "update_product_inventory",
         Message.ai "The variant was not found." []] := by
  constructor
  · simp [update_product_inventory, update_product_inventory_body, hsetup,
          hfind, catchErrors]
  · rfl

/-- Witness for C8, at variant id 999999 and quantity 5 against the
not-found stub. -/
theorem update_variant_not_found_payload_loop_continues_witness :
    update_product_inventory envOK apiStub 999999 5 =
      .obj [("error", .str "Variant not found")] ∧
    runLoop notFoundBackend (execUpdateInventory envOK apiStub) 2
        [Message.human "Set the inventory of variant 999999 to 5"] =
      .done "The variant was not found."
        [Message.human "Set the inventory of variant 999999 to 5",
         Message.ai "" [updateCall],
         Message.tool (.obj [("error", .str "Variant not found")])
           "update_product_inventory",
         Message.ai "The variant was not found." []] :=
  update_variant_not_found_payload_loop_continues envOK apiStub 999999 5
    "https://shop.myshopify.com/admin/api/2025-01/" rfl rfl

/-- C10: for every completed `chat` call the final messages list is
non-empty — the user's own message is appended to the state before
generation — so the `"No response from agent"` fallback branch is
unreachable and `chat` returns the content of the last message. -/
theorem chat_fallback_unreachable
    (b : List Message → String × List ToolCall) (e : ToolCall → JValue)
    (fuel : Nat) (prior : List Message) (msg out : String)
    (t' : List Message)
    (hchat : chat b e fuel prior msg = some (out, t')) :
    t' ≠ [] ∧ out = ((t'.getLast?).map Message.content).getD "" := by
  obtain ⟨s, hs⟩ :=
    runLoop_transcript_extends b e fuel (prior ++ [Message.human msg])
  unfold chat at hchat
  cases hrun : runLoop b e fuel (prior ++ [Message.human msg]) with
  | stillRunning t2 =>
    rw [hrun] at hchat
    exact Option.noConfusion hchat
  | done text t2 =>
    rw [hrun] at hchat
    have hpair := Option.some.inj hchat
    have hout : chatReturn t2 = out := congrArg Prod.fst hpair
    have ht : t2 = t' := congrArg Prod.snd hpair
    subst ht
    rw [hrun] at hs
    simp only [RunOutcome.transcript] at hs
    have hne : t2 ≠ [] := by
      rw [hs]
      simp
    refine ⟨hne, ?_⟩
    rw [← hout]
    simp [chatReturn, List.isEmpty_iff, hne]

/-- Witness for C10: a one-turn conversation returns the content of the
final (non-empty) transcript's last message. -/
theorem chat_fallback_unreachable_witness :
    ([Message.human "hi", Message.ai "Hello" []] ≠ ([] : List Message)) ∧
    "Hello" = ((([Message.human "hi",
      Message.ai "Hello" []]).getLast?).map Message.content).getD "" :=
  chat_fallback_unreachable plainBackend nullExec 1 [] "hi" "Hello"
    [Message.human "hi", Message.ai "Hello" []] rfl
